import Mathlib

/-!
# Verification of `firebase-auth-cfworkers`

A shallow embedding of the library's two source modules:

* `src/lib/google-oauth.ts` — `getAuthToken` and the module-level
  `verifyIdToken` (namespace `GoogleOAuth` below);
* `src/lib/firebase-auth.ts` — the `FirebaseAuth` class (namespace
  `FirebaseAuth` below).

Effects are made explicit: every HTTP exchange is mediated by an `Env`
record that fixes, for this run, the JSON key sets returned by the two
public-key endpoints, the responses of the identity-toolkit POST
endpoints, the OAuth access token the token endpoint would mint, and a
signature-validity oracle standing for RSA-SHA256 verification.  A JWT is
modelled structurally (decoded protected header, decoded payload,
signature blob); `jose`'s `jwtVerify` is modelled as signature check
followed by the claim checks it performs for the options the caller
passes (issuer, audience) and the `exp` timestamp check.  JavaScript's
falsiness of `undefined` and `""` is modelled by `isFalsy` on
`Option String`.
-/

/-- Truthiness of a JS value that is either a string or missing:
`undefined`, `null` and `""` are falsy. -/
def isFalsy : Option String → Bool
  | none => true
  | some s => s = ""

/-- Lookup `m[k]` on a decoded JSON object with string values
(`data[header.kid]` in the source): absent keys give `undefined`. -/
def jsLookup (m : List (String × String)) (k : String) : Option String :=
  (m.find? (fun e => e.1 = k)).map (fun e => e.2)

/-- Decoded JOSE protected header of a JWT (the fields the source reads). -/
structure JoseHeader where
  kid : Option String
  alg : String
deriving Repr, DecidableEq

/-- Decoded JWT claims set.  The claims the verification code inspects
(`iss`, `aud`, `exp`) are explicit; the rest of the payload is carried
opaquely in `extra`. -/
structure JWTPayload where
  iss : Option String
  aud : Option String
  sub : Option String
  exp : Option Nat
  extra : List (String × String)
deriving Repr, DecidableEq

/-- A compact JWS/JWT: decoded protected header, decoded payload and the
signature blob. -/
structure JWT where
  header : JoseHeader
  payload : JWTPayload
  signature : String
deriving Repr, DecidableEq

/-- Errors thrown by the `jose` primitives the source calls. -/
inductive JoseError
  /-- `importX509` applied to a missing (`undefined`) certificate throws. -/
  | importFailed
  /-- `JWSSignatureVerificationFailed`: signature did not validate. -/
  | signatureVerificationFailed
  /-- `JWTClaimValidationFailed` for the named claim. -/
  | claimValidationFailed (claim : String)
  /-- `JWTExpired`: the `exp` claim is in the past. -/
  | expired
deriving Repr, DecidableEq

/-- The subset of `jwtVerify`'s options the source uses. -/
structure VerifyOptions where
  issuer : Option String := none
  audience : Option String := none
deriving Repr, DecidableEq

/-- `decodeProtectedHeader` of `jose`: read the token's protected header. -/
def decodeProtectedHeader (t : JWT) : JoseHeader := t.header

/-- `importX509` of `jose`: importing `undefined` (key id missed the key
set) throws; a present certificate yields the corresponding public key,
identified here with the certificate string. -/
def importX509 (certificate : Option String) : Except JoseError String :=
  match certificate with
  | none => .error .importFailed
  | some c => .ok c

/-- Does the payload pass the issuer check for these options?  `jose`
checks `iss` only when the caller supplies an expected issuer. -/
def issuerAccepted (opts : VerifyOptions) (p : JWTPayload) : Bool :=
  match opts.issuer with
  | none => true
  | some i => p.iss = some i

/-- Does the payload pass the audience check for these options?  `jose`
checks `aud` only when the caller supplies an expected audience. -/
def audienceAccepted (opts : VerifyOptions) (p : JWTPayload) : Bool :=
  match opts.audience with
  | none => true
  | some a => p.aud = some a

/-- Is the payload expired at time `now`?  `jose` requires a present
`exp` to be strictly in the future; an absent `exp` passes. -/
def expiredAt (p : JWTPayload) (now : Nat) : Bool :=
  match p.exp with
  | none => false
  | some e => e ≤ now

/-- `jwtVerify` of `jose`: verify the signature against the given public
key (via the run's signature oracle `sigOk`), then validate the claims
requested by `opts` and the `exp` timestamp; fulfilled with the decoded
payload exactly when every check passes. -/
def jwtVerify (sigOk : JWT → String → Bool) (t : JWT) (key : String)
    (opts : VerifyOptions) (now : Nat) : Except JoseError JWTPayload :=
  if sigOk t key = false then .error .signatureVerificationFailed
  else if issuerAccepted opts t.payload = false then
    .error (.claimValidationFailed "iss")
  else if audienceAccepted opts t.payload = false then
    .error (.claimValidationFailed "aud")
  else if expiredAt t.payload now = true then .error .expired
  else .ok t.payload

/-- Information returned by `lookup` for one account; fields are those
the library's README and call sites use (`models.ts` is a plain record of
provider JSON fields). -/
structure User where
  localId : String
  email : String
deriving Repr, DecidableEq

/-- Body of an identity-toolkit JSON response, as the untyped
`Record<string, unknown>` the source passes around: the fields any call
site reads are explicit, everything else is carried opaquely in `extra`.
A `DecodedIdToken` is this same value after a TypeScript cast. -/
structure RespData where
  users : List User := []
  idToken : String := ""
  refreshToken : String := ""
  sessionCookie : String := ""
  extra : List (String × String) := []
deriving Repr, DecidableEq

/-- An HTTP response: status code and decoded JSON body. -/
structure HttpResponse where
  status : Nat
  data : RespData
deriving Repr, DecidableEq

/-- An HTTP POST request as the source builds it: target URL, body
fields, and the optional `Authorization` header value. -/
structure PostRequest where
  url : String
  formData : List (String × String)
  authHeader : Option String
deriving Repr, DecidableEq

/-- The ambient world of one run: responses of the external services and
the signature oracle.  `idTokenKeys` is the JSON object served by the
`securetoken@system.gserviceaccount.com` x509 endpoint, `sessionKeys`
the one served by `identitytoolkit/v3/relyingparty/publicKeys`;
`authToken` is the `access_token` minted by the OAuth token endpoint;
`httpPost` gives each identity-toolkit POST its response; `sigOk t c`
says whether token `t`'s signature verifies under certificate `c`. -/
structure Env where
  idTokenKeys : List (String × String)
  sessionKeys : List (String × String)
  authToken : String
  httpPost : PostRequest → HttpResponse
  sigOk : JWT → String → Bool
  now : Nat

namespace GoogleOAuth

/-- `getAuthToken` of `google-oauth.ts`: sign a service-account JWT and
exchange it at the OAuth token endpoint for an access token.  The
exchange is pure I/O, so its result is the run's `authToken`. -/
def getAuthToken (env : Env) (_serviceAccountEmail _privateKey _scope : String) :
    String :=
  env.authToken

/-- Module-level `verifyIdToken` of `google-oauth.ts`: fetch the x509 key
set, take the certificate at the token's `kid` header (no presence
check), import it, and `jwtVerify` the token with it — with no verify
options, so no issuer or audience is checked. -/
def verifyIdToken (env : Env) (idToken : JWT) : Except JoseError JWTPayload := do
  let data := env.idTokenKeys
  let header := decodeProtectedHeader idToken
  let certificate := header.kid.bind (jsLookup data)
  let publicKey ← importX509 certificate
  jwtVerify env.sigOk idToken publicKey {} env.now

end GoogleOAuth

/-- A JSON value usable as a custom-claim value (the library passes
claims through `JSON.stringify` unchanged; primitive values suffice for
the properties below). -/
inductive JsonValue
  | str (s : String)
  | num (n : Int)
  | boolean (b : Bool)
  | null
deriving Repr, DecidableEq

/-- `JSON.stringify` on a primitive value. -/
def jsonStringifyValue : JsonValue → String
  | .str s => "\"" ++ s ++ "\""
  | .num n => toString n
  | .boolean b => cond b "true" "false"
  | .null => "null"

/-- `JSON.stringify` on an object (`Record<string, unknown>`): in
particular the empty object serialises to the two-character string
`"\x7b\x7d"`. -/
def jsonStringify (o : List (String × JsonValue)) : String :=
  "\x7b" ++
    String.intercalate ","
      (o.map (fun kv => "\"" ++ kv.1 ++ "\":" ++ jsonStringifyValue kv.2)) ++
    "\x7d"

/-- A key-value cache with put-with-expiry semantics (the `Cache`
interface; `CloudflareKv` is one implementation).  Entries record the
`expirationTtl` they were stored with. -/
structure Cache where
  entries : List (String × String × Nat)
deriving Repr, DecidableEq

/-- `cache.get(key)`: the stored value, or `undefined` on a miss. -/
def Cache.get (c : Cache) (key : String) : Option String :=
  (c.entries.find? (fun e => e.1 = key)).map (fun e => e.2.1)

/-- `cache.put(key, value, { expirationTtl })`. -/
def Cache.put (c : Cache) (key value : String) (expirationTtl : Nat) : Cache :=
  ⟨(key, value, expirationTtl) :: c.entries⟩

/-- The `FirebaseConfig` the `FirebaseAuth` class is constructed with. -/
structure FirebaseConfig where
  projectId : String
  apiKey : String
  serviceAccountEmail : String
  privateKey : String
  cache : Option Cache := none

/-- Errors a `FirebaseAuth` method can reject with. -/
inductive FAError
  /-- `throw Error(res.data)` on a non-200 identity-toolkit response:
  the error carries the response body. -/
  | httpError (body : RespData)
  /-- A plain `Error(msg)`, e.g. `Cannot find public key`. -/
  | message (msg : String)
  /-- A rejection propagated from a `jose` primitive. -/
  | jose (e : JoseError)
deriving Repr, DecidableEq

namespace FirebaseAuth

/-- `private BASE_URL` of the class. -/
def BASE_URL : String := "https://identitytoolkit.googleapis.com/v1/"

/-- What one call of `withCache` produced: the value returned, whether
the `action` thunk was run, and the cache as left behind. -/
structure CacheOutcome where
  value : String
  actionRan : Bool
  cacheAfter : Option Cache
deriving Repr, DecidableEq

/-- `withCache` at the one type the class uses it at (`string`): no
configured cache runs the action every time; a truthy cached value is
returned as is; a falsy `get` (`undefined` or `""`) runs the action and
stores its result under `key` with the given `expiration`. -/
def withCache (cfgCache : Option Cache) (action : String) (key : String)
    (expiration : Nat) : CacheOutcome :=
  match cfgCache with
  | none => ⟨action, true, none⟩
  | some c =>
    let result := c.get key
    if isFalsy result then
      ⟨action, true, some (c.put key action expiration)⟩
    else
      ⟨result.getD "", false, some c⟩

/-- `getToken`: `getAuthToken` for the identity-toolkit scope, cached
under `"google-oauth"` for 3600 seconds. -/
def getToken (cfg : FirebaseConfig) (env : Env) : CacheOutcome :=
  withCache cfg.cache
    (GoogleOAuth.getAuthToken env cfg.serviceAccountEmail cfg.privateKey
      "https://www.googleapis.com/auth/identitytoolkit")
    "google-oauth" 3600

/-- The request `sendFirebaseAuthPostRequest` issues: form data posted
to `BASE_URL ++ "accounts:" ++ endpoint ++ "?key=" ++ apiKey`, with no
authorization header. -/
def authPostRequest (cfg : FirebaseConfig) (formData : List (String × String))
    (endpoint : String) : PostRequest :=
  ⟨BASE_URL ++ "accounts:" ++ endpoint ++ "?key=" ++ cfg.apiKey, formData, none⟩

/-- `private sendFirebaseAuthPostRequest`: POST to the identity-toolkit
endpoint; a non-200 status throws an error carrying the response body,
otherwise the body is returned. -/
def sendFirebaseAuthPostRequest (cfg : FirebaseConfig) (env : Env)
    (formData : List (String × String)) (endpoint : String) :
    Except FAError RespData :=
  let res := env.httpPost (authPostRequest cfg formData endpoint)
  if res.status ≠ 200 then .error (.httpError res.data) else .ok res.data

/-- `lookupUser`: POST the ID token to `lookup` and return
`data.users[0]` (which is `undefined` when the list is empty, hence the
`Option`). -/
def lookupUser (cfg : FirebaseConfig) (env : Env) (idToken : String) :
    Except FAError (Option User) :=
  (sendFirebaseAuthPostRequest cfg env [("idToken", idToken)] "lookup").map
    (fun data => data.users.head?)

/-- `signInWithEmailAndPassword`: POST email, password and
`returnSecureToken: 'true'` to `signInWithPassword`; the response body is
the token, and the user is looked up from `token.idToken`. -/
def signInWithEmailAndPassword (cfg : FirebaseConfig) (env : Env)
    (email password : String) : Except FAError (RespData × Option User) := do
  let data ← sendFirebaseAuthPostRequest cfg env
    [("email", email), ("password", password), ("returnSecureToken", "true")]
    "signInWithPassword"
  let token := data
  let user ← lookupUser cfg env token.idToken
  return (token, user)

/-- `changePassword`: POST the ID token and the new password to
`update`; the response body is returned as the token. -/
def changePassword (cfg : FirebaseConfig) (env : Env)
    (idToken newPassword : String) : Except FAError RespData := do
  let data ← sendFirebaseAuthPostRequest cfg env
    [("idToken", idToken), ("password", newPassword),
     ("returnSecureToken", "true")]
    "update"
  return data

/-- `deleteAccount`: POST the ID token to `delete`; the body of a
successful response is discarded. -/
def deleteAccount (cfg : FirebaseConfig) (env : Env) (idToken : String) :
    Except FAError Unit := do
  let _ ← sendFirebaseAuthPostRequest cfg env [("idToken", idToken)] "delete"
  return ()

/-- `signUpWithEmailAndPassword`: like sign-in but against the `signUp`
endpoint. -/
def signUpWithEmailAndPassword (cfg : FirebaseConfig) (env : Env)
    (email password : String) : Except FAError (RespData × Option User) := do
  let data ← sendFirebaseAuthPostRequest cfg env
    [("email", email), ("password", password), ("returnSecureToken", "true")]
    "signUp"
  let token := data
  let user ← lookupUser cfg env token.idToken
  return (token, user)

/-- The request `setCustomUserClaims` issues: a `null` claims argument is
replaced by the empty object, the claims are `JSON.stringify`ed into
`customAttributes`, and the POST goes to
`projects/{projectId}/accounts:update` with a Bearer token from
`getToken`. -/
def setCustomUserClaimsRequest (cfg : FirebaseConfig) (env : Env) (uid : String)
    (customUserClaims : Option (List (String × JsonValue))) : PostRequest :=
  let claims := match customUserClaims with
    | none => []
    | some m => m
  let token := (getToken cfg env).value
  ⟨BASE_URL ++ "projects/" ++ cfg.projectId ++ "/accounts:update",
   [("localId", uid), ("customAttributes", jsonStringify claims)],
   some ("Bearer " ++ token)⟩

/-- `setCustomUserClaims`: issue the request above; a non-200 status
throws an error carrying the response body, otherwise the body is
returned.  No size check is made on the claims payload. -/
def setCustomUserClaims (cfg : FirebaseConfig) (env : Env) (uid : String)
    (customUserClaims : Option (List (String × JsonValue))) :
    Except FAError RespData :=
  let res := env.httpPost (setCustomUserClaimsRequest cfg env uid customUserClaims)
  if res.status ≠ 200 then .error (.httpError res.data) else .ok res.data

/-- The request `createSessionCookie` issues: the ID token and the
duration (stringified) posted to `projects/{projectId}:createSessionCookie`
with a Bearer token from `getToken`. -/
def createSessionCookieRequest (cfg : FirebaseConfig) (env : Env)
    (idToken : String) (expiresIn : Nat) : PostRequest :=
  ⟨BASE_URL ++ "projects/" ++ cfg.projectId ++ ":createSessionCookie",
   [("idToken", idToken), ("validDuration", toString expiresIn)],
   some ("Bearer " ++ (getToken cfg env).value)⟩

/-- `createSessionCookie` (default duration fourteen days): issue the
request above; a non-200 status throws an error carrying the response
body, otherwise the `sessionCookie` field of the body is returned. -/
def createSessionCookie (cfg : FirebaseConfig) (env : Env) (idToken : String)
    (expiresIn : Nat := 60 * 60 * 24 * 14) : Except FAError String :=
  let res := env.httpPost (createSessionCookieRequest cfg env idToken expiresIn)
  if res.status ≠ 200 then .error (.httpError res.data)
  else .ok res.data.sessionCookie

/-- `verifySessionCookie`: fetch the relying-party key set; if
`data[header.kid]` is falsy throw `Cannot find public key`; otherwise it
imports that certificate and runs `jwtVerify` on the cookie with
expected issuer `https://session.firebase.google.com/{projectId}` and
expected audience `projectId`. -/
def verifySessionCookie (cfg : FirebaseConfig) (env : Env)
    (sessionCookie : JWT) : Except FAError JWTPayload :=
  let data := env.sessionKeys
  let header := decodeProtectedHeader sessionCookie
  if isFalsy (header.kid.bind (jsLookup data)) then
    .error (.message "Cannot find public key")
  else
    let certificate := header.kid.bind (jsLookup data)
    ((importX509 certificate).bind fun publicKey =>
      jwtVerify env.sigOk sessionCookie publicKey
        ⟨some ("https://session.firebase.google.com/" ++ cfg.projectId),
         some cfg.projectId⟩ env.now).mapError .jose

/-- Method `verifyIdToken` of the class: delegates to the module-level
`verifyIdToken` of `google-oauth.ts`.  The `customData` argument
(default `{}`) is passed as a second argument to a one-parameter
function, so JavaScript discards it. -/
def verifyIdToken (_cfg : FirebaseConfig) (env : Env) (idToken : JWT)
    (_customData : List (String × String) := []) :
    Except JoseError JWTPayload :=
  GoogleOAuth.verifyIdToken env idToken

end FirebaseAuth

/-! ## Helper lemmas -/

/-- `mapError` preserves success values. -/
theorem mapError_ok_iff {ε ε' α : Type} (f : ε → ε') (x : Except ε α) (a : α) :
    x.mapError f = .ok a ↔ x = .ok a := by
  cases x <;> simp [Except.mapError]

/-- Success characterisation of the `jwtVerify` model. -/
theorem jwtVerify_ok_iff (sigOk : JWT → String → Bool) (t : JWT) (key : String)
    (opts : VerifyOptions) (now : Nat) (p : JWTPayload) :
    jwtVerify sigOk t key opts now = .ok p ↔
      p = t.payload ∧ sigOk t key = true ∧
      issuerAccepted opts t.payload = true ∧
      audienceAccepted opts t.payload = true ∧
      expiredAt t.payload now = false := by
  cases hs : sigOk t key <;>
    cases hi : issuerAccepted opts t.payload <;>
      cases ha : audienceAccepted opts t.payload <;>
        cases he : expiredAt t.payload now <;>
          simp [jwtVerify, hs, hi, ha, he, eq_comm]

/-- The module-level `verifyIdToken` is the bind of certificate import and
`jwtVerify` with empty options. -/
theorem GoogleOAuth.verifyIdToken_eq (env : Env) (t : JWT) :
    GoogleOAuth.verifyIdToken env t =
      (importX509 (t.header.kid.bind (jsLookup env.idTokenKeys))).bind
        (fun publicKey => jwtVerify env.sigOk t publicKey {} env.now) := rfl

/-! ## Concrete fixtures (used by witnesses and counterexamples) -/

/-- A config with no cache configured. -/
def cfgA : FirebaseConfig :=
  { projectId := "demo-project", apiKey := "apikey", serviceAccountEmail := "svc@demo",
    privateKey := "pk", cache := none }

/-- A token whose header names key id `kid1` and whose payload carries
no `iss` and no `aud` claim at all, expiring at 2000. -/
def tokenA : JWT :=
  { header := { kid := some "kid1", alg := "RS256" },
    payload := { iss := none, aud := none, sub := some "uid1",
                 exp := some 2000, extra := [] },
    signature := "sigA" }

/-- A token with no `kid` header field. -/
def tokenB : JWT :=
  { header := { kid := none, alg := "RS256" },
    payload := { iss := some "https://session.firebase.google.com/demo-project",
                 aud := some "demo-project", sub := some "uid2",
                 exp := some 2000, extra := [] },
    signature := "sigB" }

/-- A run in which both key endpoints serve `kid1 ↦ certA`, every
signature verifies, every POST answers 200 with an empty body, and the
clock reads 1000. -/
def envA : Env :=
  { idTokenKeys := [("kid1", "certA")], sessionKeys := [("kid1", "certA")],
    authToken := "oauth-token", httpPost := fun _ => ⟨200, {}⟩,
    sigOk := fun _ _ => true, now := 1000 }

/-! ## Claims -/

/-- **C1** (counterexample).  The claim says `verifyIdToken` checks the
issuer and audience claims.  It does not: `tokenA` carries no `iss` and
no `aud` claim at all — so no issuer or audience check could pass —
yet `verifyIdToken` fulfils with its decoded claims (the signature
verifies and the token is unexpired in run `envA`). -/
theorem C1_counterexample :
    tokenA.payload.iss = none ∧ tokenA.payload.aud = none ∧
    GoogleOAuth.verifyIdToken envA tokenA = .ok tokenA.payload :=
  ⟨rfl, rfl, rfl⟩

/-- **C1** (amended).  `verifyIdToken` verifies the token's cryptographic
signature and checks expiry, but checks neither issuer nor audience (it
passes no verify options): the promise is fulfilled, with the token's
decoded claims, exactly when the certificate at the token's key id is
found, the signature verifies against it, and the token is not expired;
it is rejected otherwise.  The class method delegates to it unchanged. -/
theorem C1_verifyIdToken_signature_expiry_only (cfg : FirebaseConfig)
    (env : Env) (t : JWT) (p : JWTPayload) :
    (GoogleOAuth.verifyIdToken env t = .ok p ↔
      p = t.payload ∧
      ∃ c, t.header.kid.bind (jsLookup env.idTokenKeys) = some c ∧
        env.sigOk t c = true ∧ expiredAt t.payload env.now = false) ∧
    (∀ cd, FirebaseAuth.verifyIdToken cfg env t cd =
      GoogleOAuth.verifyIdToken env t) := by
  refine ⟨?_, fun _ => rfl⟩
  rw [GoogleOAuth.verifyIdToken_eq]
  cases hc : t.header.kid.bind (jsLookup env.idTokenKeys) with
  | none => simp [importX509, Except.bind]
  | some c =>
    simp [importX509, Except.bind, jwtVerify_ok_iff, issuerAccepted,
      audienceAccepted]

/-- **C2**.  Both verification operations select, from the key set their
endpoint served, exactly the certificate stored under the token's `kid`
header, and the signature check runs against that certificate and no
other: once `data[kid]` resolves to `c`, the whole result is `jwtVerify`
against `c` (so it depends on no other key of the set). -/
theorem C2_key_selection (cfg : FirebaseConfig) (env : Env) (t : JWT)
    (c : String) :
    (t.header.kid.bind (jsLookup env.idTokenKeys) = some c →
      GoogleOAuth.verifyIdToken env t = jwtVerify env.sigOk t c {} env.now) ∧
    (t.header.kid.bind (jsLookup env.sessionKeys) = some c → c ≠ "" →
      FirebaseAuth.verifySessionCookie cfg env t =
        (jwtVerify env.sigOk t c
          ⟨some ("https://session.firebase.google.com/" ++ cfg.projectId),
           some cfg.projectId⟩ env.now).mapError FAError.jose) := by
  constructor
  · intro hc
    rw [GoogleOAuth.verifyIdToken_eq, hc]
    rfl
  · intro hc hne
    simp [FirebaseAuth.verifySessionCookie, decodeProtectedHeader, hc,
      isFalsy, hne, importX509, Except.bind]

/-- **C2** (witness): in run `envA`, both operations verify `tokenA`
against certificate `certA`, the one `kid1` names. -/
theorem C2_key_selection_witness :
    GoogleOAuth.verifyIdToken envA tokenA =
      jwtVerify envA.sigOk tokenA "certA" {} envA.now ∧
    FirebaseAuth.verifySessionCookie cfgA envA tokenA =
      (jwtVerify envA.sigOk tokenA "certA"
        ⟨some ("https://session.firebase.google.com/" ++ cfgA.projectId),
         some cfgA.projectId⟩ envA.now).mapError FAError.jose :=
  ⟨(C2_key_selection cfgA envA tokenA "certA").1 rfl,
   (C2_key_selection cfgA envA tokenA "certA").2 rfl (by decide)⟩

/-- **C3**.  `verifySessionCookie` resolves with the cookie's decoded
payload exactly when: a (non-empty) certificate is stored under the
cookie's `kid`, the signature verifies against it, the issuer claim is
`https://session.firebase.google.com/` followed by the configured
project id, the audience claim is the configured project id, and the
cookie is not expired. -/
theorem C3_verifySessionCookie_ok_iff (cfg : FirebaseConfig) (env : Env)
    (t : JWT) (p : JWTPayload) :
    FirebaseAuth.verifySessionCookie cfg env t = .ok p ↔
      p = t.payload ∧
      ∃ c, t.header.kid.bind (jsLookup env.sessionKeys) = some c ∧ c ≠ "" ∧
        env.sigOk t c = true ∧
        t.payload.iss =
          some ("https://session.firebase.google.com/" ++ cfg.projectId) ∧
        t.payload.aud = some cfg.projectId ∧
        expiredAt t.payload env.now = false := by
  cases hc : t.header.kid.bind (jsLookup env.sessionKeys) with
  | none =>
    simp [FirebaseAuth.verifySessionCookie, decodeProtectedHeader, hc, isFalsy]
  | some c =>
    by_cases hne : c = ""
    · subst hne
      simp [FirebaseAuth.verifySessionCookie, decodeProtectedHeader, hc, isFalsy]
    · simp [FirebaseAuth.verifySessionCookie, decodeProtectedHeader, hc,
        isFalsy, hne, importX509, Except.bind, mapError_ok_iff,
        jwtVerify_ok_iff, issuerAccepted, audienceAccepted]

/-- **C4**.  For both verification operations, once the key id resolves
to a certificate: a correctly signed, unexpired token (with, for session
cookies, the expected issuer and audience claims) fulfils with the
decoded claims; a token whose signature does not validate is rejected,
and an expired token is rejected. -/
theorem C4_valid_accept_invalid_reject (cfg : FirebaseConfig) (env : Env)
    (t : JWT) (c : String) :
    (t.header.kid.bind (jsLookup env.idTokenKeys) = some c →
      (env.sigOk t c = true → expiredAt t.payload env.now = false →
        GoogleOAuth.verifyIdToken env t = .ok t.payload) ∧
      (env.sigOk t c = false →
        GoogleOAuth.verifyIdToken env t =
          .error .signatureVerificationFailed) ∧
      (env.sigOk t c = true → expiredAt t.payload env.now = true →
        GoogleOAuth.verifyIdToken env t = .error .expired)) ∧
    (t.header.kid.bind (jsLookup env.sessionKeys) = some c → c ≠ "" →
      (env.sigOk t c = true →
        t.payload.iss =
          some ("https://session.firebase.google.com/" ++ cfg.projectId) →
        t.payload.aud = some cfg.projectId →
        expiredAt t.payload env.now = false →
        FirebaseAuth.verifySessionCookie cfg env t = .ok t.payload) ∧
      (env.sigOk t c = false →
        FirebaseAuth.verifySessionCookie cfg env t =
          .error (.jose .signatureVerificationFailed)) ∧
      (env.sigOk t c = true →
        t.payload.iss =
          some ("https://session.firebase.google.com/" ++ cfg.projectId) →
        t.payload.aud = some cfg.projectId →
        expiredAt t.payload env.now = true →
        FirebaseAuth.verifySessionCookie cfg env t =
          .error (.jose .expired))) := by
  constructor
  · intro hc
    rw [GoogleOAuth.verifyIdToken_eq, hc]
    refine ⟨fun hs he => ?_, fun hs => ?_, fun hs he => ?_⟩
    · simp [importX509, Except.bind, jwtVerify, issuerAccepted,
        audienceAccepted, hs, he]
    · simp [importX509, Except.bind, jwtVerify, hs]
    · simp [importX509, Except.bind, jwtVerify, issuerAccepted,
        audienceAccepted, hs, he]
  · intro hc hne
    refine ⟨fun hs hi ha he => ?_, fun hs => ?_, fun hs hi ha he => ?_⟩
    · simp [FirebaseAuth.verifySessionCookie, decodeProtectedHeader, hc,
        isFalsy, hne, importX509, Except.bind, Except.mapError, jwtVerify,
        issuerAccepted, audienceAccepted, hs, hi, ha, he]
    · simp [FirebaseAuth.verifySessionCookie, decodeProtectedHeader, hc,
        isFalsy, hne, importX509, Except.bind, Except.mapError, jwtVerify, hs]
    · simp [FirebaseAuth.verifySessionCookie, decodeProtectedHeader, hc,
        isFalsy, hne, importX509, Except.bind, Except.mapError, jwtVerify,
        issuerAccepted, audienceAccepted, hs, hi, ha, he]

/-- **C4** (witness): in run `envA` (every signature valid, clock 1000),
the unexpired `tokenA` verifies via `verifyIdToken` with its decoded
claims. -/
theorem C4_valid_accept_invalid_reject_witness :
    GoogleOAuth.verifyIdToken envA tokenA = .ok tokenA.payload :=
  (((C4_valid_accept_invalid_reject cfgA envA tokenA "certA").1 rfl).1) rfl rfl

/-- **C5**.  Every operation that POSTs to the identity-toolkit API
surfaces HTTP failures directly: whenever the response to the request it
issues has a status other than 200, the operation rejects with an error
carrying that response's body; on a 200 response it returns a value
derived from the body (for the two sign operations this covers both the
primary request and the follow-up `lookup`).  JWT verification outcomes
are likewise surfaced unchanged: the class's `verifyIdToken` returns the
underlying verification result as is. -/
theorem C5_http_error_surfacing (cfg : FirebaseConfig) (env : Env)
    (idToken email password newPassword uid : String)
    (claims : Option (List (String × JsonValue))) (expiresIn : Nat)
    (t : JWT) (cd : List (String × String)) :
    (∀ r, env.httpPost
        (FirebaseAuth.authPostRequest cfg [("idToken", idToken)] "lookup") = r →
      (r.status ≠ 200 →
        FirebaseAuth.lookupUser cfg env idToken = .error (.httpError r.data)) ∧
      (r.status = 200 →
        FirebaseAuth.lookupUser cfg env idToken = .ok r.data.users.head?)) ∧
    (∀ r1, env.httpPost (FirebaseAuth.authPostRequest cfg
        [("email", email), ("password", password), ("returnSecureToken", "true")]
        "signInWithPassword") = r1 →
      (r1.status ≠ 200 →
        FirebaseAuth.signInWithEmailAndPassword cfg env email password =
          .error (.httpError r1.data)) ∧
      (r1.status = 200 →
        ∀ r2, env.httpPost (FirebaseAuth.authPostRequest cfg
            [("idToken", r1.data.idToken)] "lookup") = r2 →
          (r2.status ≠ 200 →
            FirebaseAuth.signInWithEmailAndPassword cfg env email password =
              .error (.httpError r2.data)) ∧
          (r2.status = 200 →
            FirebaseAuth.signInWithEmailAndPassword cfg env email password =
              .ok (r1.data, r2.data.users.head?)))) ∧
    (∀ r1, env.httpPost (FirebaseAuth.authPostRequest cfg
        [("email", email), ("password", password), ("returnSecureToken", "true")]
        "signUp") = r1 →
      (r1.status ≠ 200 →
        FirebaseAuth.signUpWithEmailAndPassword cfg env email password =
          .error (.httpError r1.data)) ∧
      (r1.status = 200 →
        ∀ r2, env.httpPost (FirebaseAuth.authPostRequest cfg
            [("idToken", r1.data.idToken)] "lookup") = r2 →
          (r2.status ≠ 200 →
            FirebaseAuth.signUpWithEmailAndPassword cfg env email password =
              .error (.httpError r2.data)) ∧
          (r2.status = 200 →
            FirebaseAuth.signUpWithEmailAndPassword cfg env email password =
              .ok (r1.data, r2.data.users.head?)))) ∧
    (∀ r, env.httpPost (FirebaseAuth.authPostRequest cfg
        [("idToken", idToken), ("password", newPassword),
         ("returnSecureToken", "true")] "update") = r →
      (r.status ≠ 200 →
        FirebaseAuth.changePassword cfg env idToken newPassword =
          .error (.httpError r.data)) ∧
      (r.status = 200 →
        FirebaseAuth.changePassword cfg env idToken newPassword = .ok r.data)) ∧
    (∀ r, env.httpPost
        (FirebaseAuth.authPostRequest cfg [("idToken", idToken)] "delete") = r →
      (r.status ≠ 200 →
        FirebaseAuth.deleteAccount cfg env idToken =
          .error (.httpError r.data)) ∧
      (r.status = 200 → FirebaseAuth.deleteAccount cfg env idToken = .ok ())) ∧
    (∀ r, env.httpPost
        (FirebaseAuth.setCustomUserClaimsRequest cfg env uid claims) = r →
      (r.status ≠ 200 →
        FirebaseAuth.setCustomUserClaims cfg env uid claims =
          .error (.httpError r.data)) ∧
      (r.status = 200 →
        FirebaseAuth.setCustomUserClaims cfg env uid claims = .ok r.data)) ∧
    (∀ r, env.httpPost
        (FirebaseAuth.createSessionCookieRequest cfg env idToken expiresIn) = r →
      (r.status ≠ 200 →
        FirebaseAuth.createSessionCookie cfg env idToken expiresIn =
          .error (.httpError r.data)) ∧
      (r.status = 200 →
        FirebaseAuth.createSessionCookie cfg env idToken expiresIn =
          .ok r.data.sessionCookie)) ∧
    FirebaseAuth.verifyIdToken cfg env t cd = GoogleOAuth.verifyIdToken env t := by
  refine ⟨?_, ?_, ?_, ?_, ?_, ?_, ?_, rfl⟩
  · intro r hr
    refine ⟨fun hne => ?_, fun he => ?_⟩
    · simp [FirebaseAuth.lookupUser, FirebaseAuth.sendFirebaseAuthPostRequest,
        hr, hne, Except.map]
    · simp [FirebaseAuth.lookupUser, FirebaseAuth.sendFirebaseAuthPostRequest,
        hr, he, Except.map]
  · intro r1 h1
    refine ⟨fun hne => ?_, fun he1 => ?_⟩
    · simp [FirebaseAuth.signInWithEmailAndPassword,
        FirebaseAuth.sendFirebaseAuthPostRequest, h1, hne,
        Bind.bind, Except.bind]
    · intro r2 h2
      refine ⟨fun hne2 => ?_, fun he2 => ?_⟩
      · simp [FirebaseAuth.signInWithEmailAndPassword, FirebaseAuth.lookupUser,
          FirebaseAuth.sendFirebaseAuthPostRequest, h1, he1, h2, hne2,
          Bind.bind, Except.bind, Except.map, Pure.pure, Except.pure]
      · simp [FirebaseAuth.signInWithEmailAndPassword, FirebaseAuth.lookupUser,
          FirebaseAuth.sendFirebaseAuthPostRequest, h1, he1, h2, he2,
          Bind.bind, Except.bind, Except.map, Pure.pure, Except.pure]
  · intro r1 h1
    refine ⟨fun hne => ?_, fun he1 => ?_⟩
    · simp [FirebaseAuth.signUpWithEmailAndPassword,
        FirebaseAuth.sendFirebaseAuthPostRequest, h1, hne,
        Bind.bind, Except.bind]
    · intro r2 h2
      refine ⟨fun hne2 => ?_, fun he2 => ?_⟩
      · simp [FirebaseAuth.signUpWithEmailAndPassword, FirebaseAuth.lookupUser,
          FirebaseAuth.sendFirebaseAuthPostRequest, h1, he1, h2, hne2,
          Bind.bind, Except.bind, Except.map, Pure.pure, Except.pure]
      · simp [FirebaseAuth.signUpWithEmailAndPassword, FirebaseAuth.lookupUser,
          FirebaseAuth.sendFirebaseAuthPostRequest, h1, he1, h2, he2,
          Bind.bind, Except.bind, Except.map, Pure.pure, Except.pure]
  · intro r hr
    refine ⟨fun hne => ?_, fun he => ?_⟩
    · simp [FirebaseAuth.changePassword,
        FirebaseAuth.sendFirebaseAuthPostRequest, hr, hne,
        Bind.bind, Except.bind, Pure.pure, Except.pure]
    · simp [FirebaseAuth.changePassword,
        FirebaseAuth.sendFirebaseAuthPostRequest, hr, he,
        Bind.bind, Except.bind, Pure.pure, Except.pure]
  · intro r hr
    refine ⟨fun hne => ?_, fun he => ?_⟩
    · simp [FirebaseAuth.deleteAccount,
        FirebaseAuth.sendFirebaseAuthPostRequest, hr, hne,
        Bind.bind, Except.bind, Pure.pure, Except.pure]
    · simp [FirebaseAuth.deleteAccount,
        FirebaseAuth.sendFirebaseAuthPostRequest, hr, he,
        Bind.bind, Except.bind, Pure.pure, Except.pure]
  · intro r hr
    refine ⟨fun hne => ?_, fun he => ?_⟩
    · simp [FirebaseAuth.setCustomUserClaims, hr, hne]
    · simp [FirebaseAuth.setCustomUserClaims, hr, he]
  · intro r hr
    refine ⟨fun hne => ?_, fun he => ?_⟩
    · simp [FirebaseAuth.createSessionCookie, hr, hne]
    · simp [FirebaseAuth.createSessionCookie, hr, he]

/-- **C5** (witness): in run `envA` every POST answers 200 with an empty
body, so `lookupUser` resolves with `users[0]` of that body
(`undefined`, the list being empty). -/
theorem C5_http_error_surfacing_witness :
    FirebaseAuth.lookupUser cfgA envA "some-id-token" = .ok none :=
  ((C5_http_error_surfacing cfgA envA "some-id-token" "e@x" "pw" "npw" "uid1"
      none 300 tokenA []).1 ⟨200, {}⟩ rfl).2 rfl

/-- A cache already holding a token under `"google-oauth"` (stored with
some earlier TTL). -/
def cacheB : Cache := ⟨[("google-oauth", "cached-token", 111)]⟩

/-- `cfgA` with `cacheB` configured. -/
def cfgB : FirebaseConfig := { cfgA with cache := some cacheB }

/-- **C6**.  `getToken` caches the OAuth token under key `"google-oauth"`
with expiration 3600 seconds: with no cache configured it always runs
`getAuthToken`; with a cache holding a non-empty value under that key it
returns that value without running `getAuthToken`; on a miss (or an
empty cached value) it runs `getAuthToken`, stores the result under that
key with TTL 3600, and returns it. -/
theorem C6_getToken_cache (cfg : FirebaseConfig) (env : Env) :
    (cfg.cache = none →
      FirebaseAuth.getToken cfg env =
        ⟨GoogleOAuth.getAuthToken env cfg.serviceAccountEmail cfg.privateKey
            "https://www.googleapis.com/auth/identitytoolkit",
          true, none⟩) ∧
    (∀ c v, cfg.cache = some c → c.get "google-oauth" = some v → v ≠ "" →
      FirebaseAuth.getToken cfg env = ⟨v, false, some c⟩) ∧
    (∀ c, cfg.cache = some c → isFalsy (c.get "google-oauth") = true →
      FirebaseAuth.getToken cfg env =
        ⟨GoogleOAuth.getAuthToken env cfg.serviceAccountEmail cfg.privateKey
            "https://www.googleapis.com/auth/identitytoolkit",
          true,
          some (c.put "google-oauth"
            (GoogleOAuth.getAuthToken env cfg.serviceAccountEmail
              cfg.privateKey "https://www.googleapis.com/auth/identitytoolkit")
            3600)⟩) := by
  refine ⟨fun h => ?_, fun c v hc hv hne => ?_, fun c hc hf => ?_⟩
  · simp [FirebaseAuth.getToken, FirebaseAuth.withCache, h]
  · simp [FirebaseAuth.getToken, FirebaseAuth.withCache, hc, hv, isFalsy, hne]
  · simp [FirebaseAuth.getToken, FirebaseAuth.withCache, hc, hf]

/-- **C6** (witness): with `cacheB` configured and holding
`"cached-token"`, `getToken` returns the cached value, does not run
`getAuthToken`, and leaves the cache unchanged. -/
theorem C6_getToken_cache_witness :
    FirebaseAuth.getToken cfgB envA = ⟨"cached-token", false, some cacheB⟩ :=
  (C6_getToken_cache cfgB envA).2.1 cacheB "cached-token" rfl rfl (by decide)

/-- **C7**.  Sign-in posts the email, the password and
`returnSecureToken: 'true'` to `signInWithPassword` (sign-up to
`signUp`), and on success returns the pair of the response body as the
token and the result of `lookupUser` applied to that token's `idToken`
field. -/
theorem C7_sign_in_up_flow (cfg : FirebaseConfig) (env : Env)
    (email password : String) :
    FirebaseAuth.signInWithEmailAndPassword cfg env email password =
      (FirebaseAuth.sendFirebaseAuthPostRequest cfg env
        [("email", email), ("password", password), ("returnSecureToken", "true")]
        "signInWithPassword").bind (fun token =>
          (FirebaseAuth.lookupUser cfg env token.idToken).map
            (fun user => (token, user))) ∧
    FirebaseAuth.signUpWithEmailAndPassword cfg env email password =
      (FirebaseAuth.sendFirebaseAuthPostRequest cfg env
        [("email", email), ("password", password), ("returnSecureToken", "true")]
        "signUp").bind (fun token =>
          (FirebaseAuth.lookupUser cfg env token.idToken).map
            (fun user => (token, user))) := by
  constructor
  · cases h : FirebaseAuth.sendFirebaseAuthPostRequest cfg env
      [("email", email), ("password", password), ("returnSecureToken", "true")]
      "signInWithPassword" with
    | error e =>
      simp [FirebaseAuth.signInWithEmailAndPassword, h, Bind.bind, Except.bind]
    | ok d =>
      cases h2 : FirebaseAuth.lookupUser cfg env d.idToken <;>
        simp [FirebaseAuth.signInWithEmailAndPassword, h, h2, Bind.bind,
          Except.bind, Except.map, Pure.pure, Except.pure]
  · cases h : FirebaseAuth.sendFirebaseAuthPostRequest cfg env
      [("email", email), ("password", password), ("returnSecureToken", "true")]
      "signUp" with
    | error e =>
      simp [FirebaseAuth.signUpWithEmailAndPassword, h, Bind.bind, Except.bind]
    | ok d =>
      cases h2 : FirebaseAuth.lookupUser cfg env d.idToken <;>
        simp [FirebaseAuth.signUpWithEmailAndPassword, h, h2, Bind.bind,
          Except.bind, Except.map, Pure.pure, Except.pure]

/-- **C8**.  The `customData` parameter of the class's `verifyIdToken`
has no effect: it is handed as a second argument to the one-parameter
module-level verification function, which JavaScript discards, so any
two values (the default `{}` included) give identical behaviour. -/
theorem C8_customData_no_effect (cfg : FirebaseConfig) (env : Env) (t : JWT)
    (cd1 cd2 : List (String × String)) :
    FirebaseAuth.verifyIdToken cfg env t cd1 =
      FirebaseAuth.verifyIdToken cfg env t cd2 := rfl

/-- **C9**.  When `data[header.kid]` is falsy (missing key id, key id
absent from the fetched set, or empty certificate), `verifySessionCookie`
throws `Cannot find public key` — whatever the signature oracle says, so
before any import or signature check — while the module-level
`verifyIdToken` has no such presence check: it proceeds into
`importX509` with the missing (`undefined`) certificate and fails there
with the import error instead. -/
theorem C9_kid_presence_check (cfg : FirebaseConfig) (env : Env)
    (cookie t : JWT) :
    (isFalsy (cookie.header.kid.bind (jsLookup env.sessionKeys)) = true →
      FirebaseAuth.verifySessionCookie cfg env cookie =
        .error (.message "Cannot find public key")) ∧
    (t.header.kid.bind (jsLookup env.idTokenKeys) = none →
      GoogleOAuth.verifyIdToken env t = .error .importFailed) := by
  refine ⟨fun hf => ?_, fun hn => ?_⟩
  · simp [FirebaseAuth.verifySessionCookie, decodeProtectedHeader, hf]
  · rw [GoogleOAuth.verifyIdToken_eq, hn]
    rfl

/-- **C9** (witness): `tokenB` has no `kid` header, so in run `envA` the
session-cookie path throws `Cannot find public key` while the ID-token
path fails at certificate import. -/
theorem C9_kid_presence_check_witness :
    FirebaseAuth.verifySessionCookie cfgA envA tokenB =
      .error (.message "Cannot find public key") ∧
    GoogleOAuth.verifyIdToken envA tokenB = .error .importFailed :=
  ⟨(C9_kid_presence_check cfgA envA tokenB tokenB).1 rfl,
   (C9_kid_presence_check cfgA envA tokenB tokenB).2 rfl⟩

/-- **C10**.  `setCustomUserClaims uid null` behaves identically to
`setCustomUserClaims uid {}`: the `null` claims argument is replaced by
the empty object before serialisation, so the issued request targets
`projects/{projectId}/accounts:update` and carries `localId = uid` and
`customAttributes = "\x7b\x7d"` (the JSON string of the empty object);
and for every claims object — with no client-side size check — the
request carries the full `JSON.stringify` of the claims and the call's
outcome is exactly that of the POST. -/
theorem C10_null_claims_empty_object (cfg : FirebaseConfig) (env : Env)
    (uid : String) :
    FirebaseAuth.setCustomUserClaimsRequest cfg env uid none =
      FirebaseAuth.setCustomUserClaimsRequest cfg env uid (some []) ∧
    FirebaseAuth.setCustomUserClaims cfg env uid none =
      FirebaseAuth.setCustomUserClaims cfg env uid (some []) ∧
    FirebaseAuth.setCustomUserClaimsRequest cfg env uid none =
      ⟨FirebaseAuth.BASE_URL ++ "projects/" ++ cfg.projectId ++
          "/accounts:update",
        [("localId", uid), ("customAttributes", "\x7b\x7d")],
        some ("Bearer " ++ (FirebaseAuth.getToken cfg env).value)⟩ ∧
    (∀ claims : List (String × JsonValue),
      (FirebaseAuth.setCustomUserClaimsRequest cfg env uid (some claims)).formData
          = [("localId", uid), ("customAttributes", jsonStringify claims)] ∧
      FirebaseAuth.setCustomUserClaims cfg env uid (some claims) =
        if (env.httpPost
            (FirebaseAuth.setCustomUserClaimsRequest cfg env uid
              (some claims))).status ≠ 200
        then .error (.httpError (env.httpPost
          (FirebaseAuth.setCustomUserClaimsRequest cfg env uid
            (some claims))).data)
        else .ok (env.httpPost
          (FirebaseAuth.setCustomUserClaimsRequest cfg env uid
            (some claims))).data) := by
  refine ⟨rfl, rfl, ?_, fun claims => ⟨rfl, rfl⟩⟩
  simp [FirebaseAuth.setCustomUserClaimsRequest, jsonStringify,
    String.intercalate]
